import Mathlib

/-!
# Verification of the procedural morph-target synthesis engine

Shallow embedding of the morph-target (blend-shape) generation scripts:

* `scripts/blender/add_morphs_to_existing.py` (namespace `AME`) — the main
  builder: bounds, up-axis and unit detection, 26 facial morphs and 3 body
  morphs, `add_shape_key`.
* `scripts/blender/create_shape_keys.py` (namespace `CSK`) — `get_mesh_bounds`
  (returns `None` on an empty mesh) and `smooth_falloff`.
* `scripts/blender/add_morph_targets.py` (namespace `AMT`) — the older
  builder with absolute (non-proportional) offsets.

Modelling conventions:

* Vertex coordinates are exact rationals (`ℚ`); all the Python constants are
  decimal literals, represented exactly.
* A Python dict built by `for i, v in enumerate(mesh.vertices): if cond(v):
  d[i] = off(v)` is modelled by its lookup function
  `fun i => (m.get? i).bind fun v => if cond v then some (off v) else none`
  (`sparse` below); keys are the distinct vertex indices, so the dict is
  determined by this function, and "stored with value 0" is distinguished
  from "absent" (`some 0` vs `none`).
* `get_mesh_bounds` of `add_morphs_to_existing.py` folds `min`/`max` starting
  from `±inf`; for a nonempty mesh this equals a fold from the first vertex,
  which is how `minCoord`/`maxCoord` are written (the empty-mesh value, `0`
  here vs `±inf` in Python, is never observable: every consumer of the bounds
  is a per-vertex loop, which is vacuous on an empty mesh).
-/

/-- A 3D point / displacement with exact rational coordinates. -/
structure Vec3 where
  x : ℚ
  y : ℚ
  z : ℚ
  deriving DecidableEq, Repr

instance : Add Vec3 := ⟨fun a b => ⟨a.x + b.x, a.y + b.y, a.z + b.z⟩⟩

instance : Zero Vec3 := ⟨⟨0, 0, 0⟩⟩

theorem Vec3.add_def (a b : Vec3) : a + b = ⟨a.x + b.x, a.y + b.y, a.z + b.z⟩ := rfl

theorem Vec3.zero_def : (0 : Vec3) = ⟨0, 0, 0⟩ := rfl

/-- A mesh is an ordered list of vertex positions (stable index per vertex). -/
abbrev Mesh : Type := List Vec3

/-- Mirror a point (or displacement) across the `x = 0` plane. -/
def mirrorV (v : Vec3) : Vec3 := ⟨-v.x, v.y, v.z⟩

/-- `min`-fold of a coordinate over the vertices, seeded with the first
vertex; equals the Python fold seeded with `+inf` on any nonempty mesh. -/
def minCoord (f : Vec3 → ℚ) : Mesh → ℚ
  | [] => 0
  | v :: vs => vs.foldl (fun a u => min a (f u)) (f v)

/-- `max`-fold of a coordinate over the vertices, seeded with the first
vertex; equals the Python fold seeded with `-inf` on any nonempty mesh. -/
def maxCoord (f : Vec3 → ℚ) : Mesh → ℚ
  | [] => 0
  | v :: vs => vs.foldl (fun a u => max a (f u)) (f v)

/-- `dim_x = max_co.x - min_co.x`. -/
def dimX (m : Mesh) : ℚ := maxCoord (·.x) m - minCoord (·.x) m

/-- `dim_y = max_co.y - min_co.y`. -/
def dimY (m : Mesh) : ℚ := maxCoord (·.y) m - minCoord (·.y) m

/-- `dim_z = max_co.z - min_co.z`. -/
def dimZ (m : Mesh) : ℚ := maxCoord (·.z) m - minCoord (·.z) m

/-- `center_x = (min_co.x + max_co.x) / 2` (same formula in all three
scripts). -/
def centerX (m : Mesh) : ℚ := (minCoord (·.x) m + maxCoord (·.x) m) / 2

/-- The sparse per-vertex offset dict, as its lookup function: the Python
loop `for i, v in enumerate(mesh.vertices): if cond(v): d[i] = off(v)`. -/
def sparse (m : Mesh) (cond : Vec3 → Bool) (off : Vec3 → Vec3) (i : ℕ) :
    Option Vec3 :=
  (List.get? m i).bind fun v => if cond v then some (off v) else none

theorem sparse_nil (cond : Vec3 → Bool) (off : Vec3 → Vec3) (i : ℕ) :
    sparse [] cond off i = none := by
  cases i <;> rfl

theorem sparse_of_get? {m : Mesh} {i : ℕ} {v : Vec3} (cond : Vec3 → Bool)
    (off : Vec3 → Vec3) (h : List.get? m i = some v) :
    sparse m cond off i = if cond v then some (off v) else none := by
  unfold sparse
  rw [h]
  rfl

theorem sparse_eq_none {m : Mesh} {i : ℕ} {v : Vec3} {cond : Vec3 → Bool}
    (off : Vec3 → Vec3) (h : List.get? m i = some v) (hc : cond v = false) :
    sparse m cond off i = none := by
  rw [sparse_of_get? cond off h, hc]
  rfl

theorem sparse_eq_some {m : Mesh} {i : ℕ} {v : Vec3} {cond : Vec3 → Bool}
    (off : Vec3 → Vec3) (h : List.get? m i = some v) (hc : cond v = true) :
    sparse m cond off i = some (off v) := by
  rw [sparse_of_get? cond off h, hc]
  rfl

/-- If the region test and the offset rule respect the `x ↦ -x` mirror for a
given pair of vertices, the sparse map does too. -/
theorem sparse_mirror {m : Mesh} {i j : ℕ} {v w : Vec3} {cond : Vec3 → Bool}
    {off : Vec3 → Vec3} (hi : List.get? m i = some v)
    (hj : List.get? m j = some w) (hc : cond w = cond v)
    (ho : cond v = true → off w = mirrorV (off v)) :
    sparse m cond off j = Option.map mirrorV (sparse m cond off i) := by
  rw [sparse_of_get? cond off hi, sparse_of_get? cond off hj, hc]
  cases hcv : cond v with
  | false => simp
  | true => simp [ho hcv]

namespace AME

/-! ## `add_morphs_to_existing.py` -/

/-- Up axis of the mesh: `{Y, Z}`. -/
inductive UpAxis where
  | Y
  | Z
  deriving DecidableEq, Repr

/-- Unit scale of the mesh: centimeters or meters. -/
inductive LenUnit where
  | centimeter
  | meter
  deriving DecidableEq, Repr

/-- `dim_y > dim_z and dim_y > dim_x` — the test selecting the Y-up branch in
`create_face_morphs`. -/
def upY (m : Mesh) : Bool := dimZ m < dimY m && dimX m < dimY m

/-- Detected up axis: Y when it has strictly the largest extent, Z
otherwise. -/
def detectUpAxis (m : Mesh) : UpAxis := if upY m then UpAxis.Y else UpAxis.Z

/-- `mesh_height` — extent along the detected up axis. -/
def meshHeight (m : Mesh) : ℚ := if upY m then dimY m else dimZ m

/-- `if mesh_height > 50: unit = "cm" else: unit = "m"`. -/
def detectUnit (m : Mesh) : LenUnit :=
  if 50 < meshHeight m then LenUnit.centimeter else LenUnit.meter

/-- `get_height`: the coordinate along the detected up axis. -/
def getHeight (m : Mesh) (v : Vec3) : ℚ := if upY m then v.y else v.z

/-- `get_width`: `abs(v.co.x)`. -/
def getWidth (v : Vec3) : ℚ := |v.x|

/-- `head_top`: the max coordinate along the detected up axis. -/
def headTop (m : Mesh) : ℚ :=
  if upY m then maxCoord (·.y) m else maxCoord (·.z) m

/-- `make_offset(dx, dy_depth, dz_height)`: arranges the (lateral, depth,
height) displacement components according to the detected up axis. -/
def makeOffset (m : Mesh) (dx dd dh : ℚ) : Vec3 :=
  if upY m then ⟨dx, dh, dd⟩ else ⟨dx, dd, dh⟩

theorem mirrorV_makeOffset (m : Mesh) (dx dd dh : ℚ) :
    mirrorV (makeOffset m dx dd dh) = makeOffset m (-dx) dd dh := by
  unfold makeOffset mirrorV
  split <;> rfl

/-- `face_height = mesh_height * 0.10`. -/
def faceHeight (m : Mesh) : ℚ := meshHeight m * 0.10

/-- `forehead_height = head_top - face_height * 0.15`. -/
def foreheadHeight (m : Mesh) : ℚ := headTop m - faceHeight m * 0.15

/-- `eyebrow_height = head_top - face_height * 0.25`. -/
def eyebrowHeight (m : Mesh) : ℚ := headTop m - faceHeight m * 0.25

/-- `eye_height = head_top - face_height * 0.35`. -/
def eyeHeight (m : Mesh) : ℚ := headTop m - faceHeight m * 0.35

/-- `cheek_height = head_top - face_height * 0.50`. -/
def cheekHeight (m : Mesh) : ℚ := headTop m - faceHeight m * 0.50

/-- `nose_height = head_top - face_height * 0.60`. -/
def noseHeight (m : Mesh) : ℚ := headTop m - faceHeight m * 0.60

/-- `mouth_height = head_top - face_height * 0.75`. -/
def mouthHeight (m : Mesh) : ℚ := headTop m - faceHeight m * 0.75

/-- `chin_height = head_top - face_height * 0.95`. -/
def chinHeight (m : Mesh) : ℚ := headTop m - faceHeight m * 0.95

/-- `base_offset = face_height * 0.015` — the proportional magnitude basis
of every facial morph. -/
def baseOffset (m : Mesh) : ℚ := faceHeight m * 0.015

/-- `face_width = face_height * 0.80`. -/
def faceWidth (m : Mesh) : ℚ := faceHeight m * 0.80

/-- `eye_zone_h = face_height * 0.20`. -/
def eyeZoneH (m : Mesh) : ℚ := faceHeight m * 0.20

/-- `eye_zone_w = face_width * 0.40`. -/
def eyeZoneW (m : Mesh) : ℚ := faceWidth m * 0.40

/-- `inner_limit = face_width * 0.10`. -/
def innerLimit (m : Mesh) : ℚ := faceWidth m * 0.10

/-- `direction = 1 if v.co.x > center_x else -1`. -/
def lateralDir (m : Mesh) (v : Vec3) : ℚ := if centerX m < v.x then 1 else -1

/-- "EyeSize" offsets. -/
def eyeOffsets (m : Mesh) : ℕ → Option Vec3 :=
  sparse m
    (fun v => |getHeight m v - eyeHeight m| < eyeZoneH m &&
      getWidth v < eyeZoneW m)
    (fun v =>
      makeOffset m 0 0
        (baseOffset m * (1 - |getHeight m v - eyeHeight m| / eyeZoneH m)))

/-- `inner_eye = face_width * 0.15` (EyeTilt). -/
def innerEye (m : Mesh) : ℚ := faceWidth m * 0.15

/-- `outer_eye = face_width * 0.45` (EyeTilt). -/
def outerEye (m : Mesh) : ℚ := faceWidth m * 0.45

/-- `eye_width = face_width * 0.40` (EyeDepth / eyelids). -/
def eyeWidth (m : Mesh) : ℚ := faceWidth m * 0.40

/-- `upper_lid_height = eye_height + face_height * 0.04`. -/
def upperLidHeight (m : Mesh) : ℚ := eyeHeight m + faceHeight m * 0.04

/-- `eyelid_zone = face_height * 0.08`. -/
def eyelidZone (m : Mesh) : ℚ := faceHeight m * 0.08

/-- `lower_lid_height = eye_height - face_height * 0.04`. -/
def lowerLidHeight (m : Mesh) : ℚ := eyeHeight m - faceHeight m * 0.04

/-- `brow_zone = face_height * 0.12`. -/
def browZone (m : Mesh) : ℚ := faceHeight m * 0.12

/-- `brow_inner = face_width * 0.10`. -/
def browInner (m : Mesh) : ℚ := faceWidth m * 0.10

/-- `brow_outer = face_width * 0.45`. -/
def browOuter (m : Mesh) : ℚ := faceWidth m * 0.45

/-- `brow_mid = (brow_inner + brow_outer) / 2`. -/
def browMid (m : Mesh) : ℚ := (browInner m + browOuter m) / 2

/-- `nose_zone_h = face_height * 0.15`. -/
def noseZoneH (m : Mesh) : ℚ := faceHeight m * 0.15

/-- `nose_width_zone = face_width * 0.20`. -/
def noseWidthZone (m : Mesh) : ℚ := faceWidth m * 0.20

/-- `bridge_height = nose_height + face_height * 0.12`. -/
def bridgeHeight (m : Mesh) : ℚ := noseHeight m + faceHeight m * 0.12

/-- `bridge_zone = face_height * 0.12`. -/
def bridgeZone (m : Mesh) : ℚ := faceHeight m * 0.12

/-- `bridge_width = face_width * 0.12`. -/
def bridgeWidth (m : Mesh) : ℚ := faceWidth m * 0.12

/-- `tip_height = nose_height - face_height * 0.08`. -/
def tipHeight (m : Mesh) : ℚ := noseHeight m - faceHeight m * 0.08

/-- `tip_zone = face_height * 0.10`. -/
def tipZone (m : Mesh) : ℚ := faceHeight m * 0.10

/-- `tip_width = face_width * 0.15`. -/
def tipWidth (m : Mesh) : ℚ := faceWidth m * 0.15

/-- `nostril_height = nose_height - face_height * 0.06`. -/
def nostrilHeight (m : Mesh) : ℚ := noseHeight m - faceHeight m * 0.06

/-- `nostril_zone = face_height * 0.08`. -/
def nostrilZone (m : Mesh) : ℚ := faceHeight m * 0.08

/-- `nostril_inner = face_width * 0.05`. -/
def nostrilInner (m : Mesh) : ℚ := faceWidth m * 0.05

/-- `nostril_outer = face_width * 0.18`. -/
def nostrilOuter (m : Mesh) : ℚ := faceWidth m * 0.18

/-- `profile_zone = face_height * 0.25`. -/
def profileZone (m : Mesh) : ℚ := faceHeight m * 0.25

/-- `mouth_zone_h = face_height * 0.12`. -/
def mouthZoneH (m : Mesh) : ℚ := faceHeight m * 0.12

/-- `lip_width = face_width * 0.25`. -/
def lipWidth (m : Mesh) : ℚ := faceWidth m * 0.25

/-- `lip_zone = face_height * 0.06`. -/
def lipZone (m : Mesh) : ℚ := faceHeight m * 0.06

/-- `mouth_inner = face_width * 0.10`. -/
def mouthInner (m : Mesh) : ℚ := faceWidth m * 0.10

/-- `mouth_outer = face_width * 0.30`. -/
def mouthOuter (m : Mesh) : ℚ := faceWidth m * 0.30

/-- `upper_lip_height = mouth_height + face_height * 0.04`. -/
def upperLipHeight (m : Mesh) : ℚ := mouthHeight m + faceHeight m * 0.04

/-- `lower_lip_height = mouth_height - face_height * 0.04`. -/
def lowerLipHeight (m : Mesh) : ℚ := mouthHeight m - faceHeight m * 0.04

/-- `corner_inner = face_width * 0.15`. -/
def cornerInner (m : Mesh) : ℚ := faceWidth m * 0.15

/-- `corner_outer = face_width * 0.30`. -/
def cornerOuter (m : Mesh) : ℚ := faceWidth m * 0.30

/-- `jaw_zone = face_height * 0.30`. -/
def jawZone (m : Mesh) : ℚ := faceHeight m * 0.30

/-- `jaw_inner = face_width * 0.20`. -/
def jawInner (m : Mesh) : ℚ := faceWidth m * 0.20

/-- `jaw_outer = face_width * 0.55`. -/
def jawOuter (m : Mesh) : ℚ := faceWidth m * 0.55

/-- `chin_zone = face_height * 0.15`. -/
def chinZone (m : Mesh) : ℚ := faceHeight m * 0.15

/-- `chin_center_h = chin_height - face_height * 0.08`. -/
def chinCenterH (m : Mesh) : ℚ := chinHeight m - faceHeight m * 0.08

/-- `chin_width = face_width * 0.25`. -/
def chinWidth (m : Mesh) : ℚ := faceWidth m * 0.25

/-- `chin_protrusion_zone = face_height * 0.18`. -/
def chinProtrusionZone (m : Mesh) : ℚ := faceHeight m * 0.18

/-- `cleft_h = chin_height - face_height * 0.04`. -/
def cleftH (m : Mesh) : ℚ := chinHeight m - faceHeight m * 0.04

/-- `cleft_zone = face_height * 0.08`. -/
def cleftZone (m : Mesh) : ℚ := faceHeight m * 0.08

/-- `cleft_width = face_width * 0.10`. -/
def cleftWidth (m : Mesh) : ℚ := faceWidth m * 0.10

/-- `face_center_h = (forehead_height + chin_height) / 2`. -/
def faceCenterH (m : Mesh) : ℚ := (foreheadHeight m + chinHeight m) / 2

/-- `face_span = forehead_height - chin_height`. -/
def faceSpan (m : Mesh) : ℚ := foreheadHeight m - chinHeight m

/-- `lower_bound = chin_height - face_height * 0.08` (FaceLength). -/
def faceLowerBound (m : Mesh) : ℚ := chinHeight m - faceHeight m * 0.08

/-- `upper_bound = forehead_height + face_height * 0.08` (FaceLength). -/
def faceUpperBound (m : Mesh) : ℚ := foreheadHeight m + faceHeight m * 0.08

/-- `forehead_zone = face_height * 0.15`. -/
def foreheadZone (m : Mesh) : ℚ := faceHeight m * 0.15

/-- `forehead_width = face_width * 0.45`. -/
def foreheadWidth (m : Mesh) : ℚ := faceWidth m * 0.45

/-- `cheek_zone = face_height * 0.15`. -/
def cheekZone (m : Mesh) : ℚ := faceHeight m * 0.15

/-- `cheek_inner = face_width * 0.25`. -/
def cheekInner (m : Mesh) : ℚ := faceWidth m * 0.25

/-- `cheek_outer = face_width * 0.55`. -/
def cheekOuter (m : Mesh) : ℚ := faceWidth m * 0.55

/-- "EyeSpacing" offsets. -/
def eyeSpacingOffsets (m : Mesh) : ℕ → Option Vec3 :=
  sparse m
    (fun v => |getHeight m v - eyeHeight m| < eyeZoneH m &&
      innerLimit m < getWidth v && getWidth v < eyeZoneW m)
    (fun v =>
      makeOffset m
        (lateralDir m v *
          (baseOffset m * 0.7 *
            (1 - |getHeight m v - eyeHeight m| / eyeZoneH m))) 0 0)

/-- "EyeTilt" offsets. -/
def eyeTiltOffsets (m : Mesh) : ℕ → Option Vec3 :=
  sparse m
    (fun v => |getHeight m v - eyeHeight m| < eyeZoneH m * 0.8 &&
      innerEye m < getWidth v && getWidth v < outerEye m)
    (fun v =>
      makeOffset m 0 0
        (baseOffset m * ((getWidth v - innerEye m) / (outerEye m - innerEye m)) *
          (1 - |getHeight m v - eyeHeight m| / (eyeZoneH m * 0.8))))

/-- "EyeDepth" offsets. -/
def eyeDepthOffsets (m : Mesh) : ℕ → Option Vec3 :=
  sparse m
    (fun v => |getHeight m v - eyeHeight m| < eyeZoneH m * 0.9 &&
      innerLimit m < getWidth v && getWidth v < eyeWidth m)
    (fun v =>
      makeOffset m 0
        (-(baseOffset m * 1.3 *
          (1 - |getHeight m v - eyeHeight m| / (eyeZoneH m * 0.9)))) 0)

/-- "UpperEyelid" offsets. -/
def upperEyelidOffsets (m : Mesh) : ℕ → Option Vec3 :=
  sparse m
    (fun v => |getHeight m v - upperLidHeight m| < eyelidZone m &&
      innerLimit m < getWidth v && getWidth v < eyeWidth m)
    (fun v =>
      makeOffset m 0 0
        (-(baseOffset m *
          (1 - |getHeight m v - upperLidHeight m| / eyelidZone m))))

/-- "LowerEyelid" offsets. -/
def lowerEyelidOffsets (m : Mesh) : ℕ → Option Vec3 :=
  sparse m
    (fun v => |getHeight m v - lowerLidHeight m| < eyelidZone m &&
      innerLimit m < getWidth v && getWidth v < eyeWidth m)
    (fun v =>
      makeOffset m 0
        (-(baseOffset m * 0.7 *
            (1 - |getHeight m v - lowerLidHeight m| / eyelidZone m)) * 0.5)
        (-(baseOffset m * 0.7 *
            (1 - |getHeight m v - lowerLidHeight m| / eyelidZone m))))

/-- "EyebrowHeight" offsets. -/
def eyebrowHeightOffsets (m : Mesh) : ℕ → Option Vec3 :=
  sparse m
    (fun v => |getHeight m v - eyebrowHeight m| < browZone m &&
      browInner m < getWidth v && getWidth v < browOuter m)
    (fun v =>
      makeOffset m 0 0
        (baseOffset m * 1.3 *
          (1 - |getHeight m v - eyebrowHeight m| / browZone m)))

/-- "EyebrowArch" offsets. -/
def eyebrowArchOffsets (m : Mesh) : ℕ → Option Vec3 :=
  sparse m
    (fun v => |getHeight m v - eyebrowHeight m| < browZone m &&
      browInner m < getWidth v && getWidth v < browOuter m)
    (fun v =>
      makeOffset m 0 0
        (baseOffset m *
          (1 - |(getWidth v - browMid m) / (browOuter m - browMid m)|) *
          (1 - |getHeight m v - eyebrowHeight m| / browZone m)))

/-- "NoseWidth" offsets. -/
def noseOffsets (m : Mesh) : ℕ → Option Vec3 :=
  sparse m
    (fun v => |getHeight m v - noseHeight m| < noseZoneH m &&
      getWidth v < noseWidthZone m)
    (fun v =>
      makeOffset m
        (lateralDir m v *
          (getWidth v / noseWidthZone m * baseOffset m * 1.5 *
            (1 - |getHeight m v - noseHeight m| / noseZoneH m))) 0 0)

/-- "NoseLength" offsets. -/
def noseLengthOffsets (m : Mesh) : ℕ → Option Vec3 :=
  sparse m
    (fun v => |getHeight m v - noseHeight m| < noseZoneH m * 1.2 &&
      getWidth v < noseWidthZone m * 0.8)
    (fun v =>
      makeOffset m 0
        (-((1 - |getHeight m v - noseHeight m| / (noseZoneH m * 1.2)) *
          baseOffset m * 1.3)) 0)

/-- "NoseBridge" offsets. -/
def noseBridgeOffsets (m : Mesh) : ℕ → Option Vec3 :=
  sparse m
    (fun v => |getHeight m v - bridgeHeight m| < bridgeZone m &&
      getWidth v < bridgeWidth m)
    (fun v =>
      makeOffset m
        (lateralDir m v *
          (baseOffset m * 0.7 *
            (1 - |getHeight m v - bridgeHeight m| / bridgeZone m))) 0 0)

/-- "NoseTip" offsets. -/
def noseTipOffsets (m : Mesh) : ℕ → Option Vec3 :=
  sparse m
    (fun v => |getHeight m v - tipHeight m| < tipZone m &&
      getWidth v < tipWidth m)
    (fun v =>
      makeOffset m 0 0
        (baseOffset m * (1 - |getHeight m v - tipHeight m| / tipZone m)))

/-- "NostrilFlare" offsets. -/
def nostrilOffsets (m : Mesh) : ℕ → Option Vec3 :=
  sparse m
    (fun v => |getHeight m v - nostrilHeight m| < nostrilZone m &&
      nostrilInner m < getWidth v && getWidth v < nostrilOuter m)
    (fun v =>
      makeOffset m
        (lateralDir m v *
          (baseOffset m *
            (1 - |getHeight m v - nostrilHeight m| / nostrilZone m))) 0 0)

/-- "NoseProfile" offsets (the height distance `dh` is signed here). -/
def noseProfileOffsets (m : Mesh) : ℕ → Option Vec3 :=
  sparse m
    (fun v => |getHeight m v - noseHeight m| < profileZone m &&
      getWidth v < noseWidthZone m * 0.8)
    (fun v =>
      makeOffset m 0
        (-(baseOffset m * 1.5 *
          max 0 ((getHeight m v - noseHeight m + profileZone m * 0.4) /
            (profileZone m * 1.4)))) 0)

/-- "MouthWidth" offsets. -/
def mouthWidthOffsets (m : Mesh) : ℕ → Option Vec3 :=
  sparse m
    (fun v => |getHeight m v - mouthHeight m| < mouthZoneH m &&
      mouthInner m < getWidth v && getWidth v < mouthOuter m)
    (fun v =>
      makeOffset m
        (lateralDir m v *
          (baseOffset m *
            (1 - |getHeight m v - mouthHeight m| / mouthZoneH m))) 0 0)

/-- "UpperLipSize" offsets. -/
def upperLipOffsets (m : Mesh) : ℕ → Option Vec3 :=
  sparse m
    (fun v => |getHeight m v - upperLipHeight m| < lipZone m &&
      getWidth v < lipWidth m)
    (fun v =>
      makeOffset m 0
        (-(baseOffset m * 0.7 *
            (1 - |getHeight m v - upperLipHeight m| / lipZone m)))
        (baseOffset m * 0.7 *
            (1 - |getHeight m v - upperLipHeight m| / lipZone m) * 0.5))

/-- "LowerLipSize" offsets. -/
def lowerLipOffsets (m : Mesh) : ℕ → Option Vec3 :=
  sparse m
    (fun v => |getHeight m v - lowerLipHeight m| < lipZone m &&
      getWidth v < lipWidth m)
    (fun v =>
      makeOffset m 0
        (-(baseOffset m * 0.7 *
            (1 - |getHeight m v - lowerLipHeight m| / lipZone m)))
        (-(baseOffset m * 0.7 *
            (1 - |getHeight m v - lowerLipHeight m| / lipZone m)) * 0.5))

/-- "LipFullness" offsets. -/
def lipOffsets (m : Mesh) : ℕ → Option Vec3 :=
  sparse m
    (fun v => |getHeight m v - mouthHeight m| < mouthZoneH m * 0.8 &&
      getWidth v < lipWidth m)
    (fun v =>
      makeOffset m 0
        (-((1 - |getHeight m v - mouthHeight m| / (mouthZoneH m * 0.8)) *
          baseOffset m * 0.7)) 0)

/-- "MouthCorners" offsets. -/
def mouthCornersOffsets (m : Mesh) : ℕ → Option Vec3 :=
  sparse m
    (fun v => |getHeight m v - mouthHeight m| < mouthZoneH m * 0.8 &&
      cornerInner m < getWidth v && getWidth v < cornerOuter m)
    (fun v =>
      makeOffset m 0 0
        (baseOffset m *
          (1 - |getHeight m v - mouthHeight m| / (mouthZoneH m * 0.8))))

/-- "JawWidth" offsets. -/
def jawOffsets (m : Mesh) : ℕ → Option Vec3 :=
  sparse m
    (fun v => |getHeight m v - chinHeight m| < jawZone m &&
      jawInner m < getWidth v && getWidth v < jawOuter m)
    (fun v =>
      makeOffset m
        (lateralDir m v *
          (getWidth v / jawOuter m * baseOffset m *
            (1 - |getHeight m v - chinHeight m| / jawZone m))) 0 0)

/-- "ChinLength" offsets. -/
def chinOffsets (m : Mesh) : ℕ → Option Vec3 :=
  sparse m
    (fun v => |getHeight m v - chinCenterH m| < chinZone m &&
      getWidth v < chinWidth m)
    (fun v =>
      makeOffset m 0 0
        (-((1 - |getHeight m v - chinCenterH m| / chinZone m) *
          baseOffset m)))

/-- "ChinProtrusion" offsets. -/
def chinProtrusionOffsets (m : Mesh) : ℕ → Option Vec3 :=
  sparse m
    (fun v => |getHeight m v - chinHeight m| < chinProtrusionZone m &&
      getWidth v < chinWidth m)
    (fun v =>
      makeOffset m 0
        (-(baseOffset m * 1.3 *
          (1 - |getHeight m v - chinHeight m| / chinProtrusionZone m))) 0)

/-- "ChinCleft" offsets. -/
def chinCleftOffsets (m : Mesh) : ℕ → Option Vec3 :=
  sparse m
    (fun v => |getHeight m v - cleftH m| < cleftZone m &&
      getWidth v < cleftWidth m)
    (fun v =>
      makeOffset m 0
        (baseOffset m * 0.7 * (1 - |getHeight m v - cleftH m| / cleftZone m) *
          (1 - getWidth v / cleftWidth m)) 0)

/-- "FaceLength" offsets (the `abs(factor) > 0.0001` test is part of the
stored-entry condition). -/
def faceLengthOffsets (m : Mesh) : ℕ → Option Vec3 :=
  sparse m
    (fun v => faceLowerBound m < getHeight m v &&
      getHeight m v < faceUpperBound m &&
      0.0001 <
        |baseOffset m * 0.6 * ((getHeight m v - faceCenterH m) / faceSpan m)|)
    (fun v =>
      makeOffset m 0 0
        (baseOffset m * 0.6 * ((getHeight m v - faceCenterH m) / faceSpan m)))

/-- "ForeheadHeight" offsets (asymmetric band: `dh > -(zone * 0.5)` and
`dh < zone`). -/
def foreheadOffsets (m : Mesh) : ℕ → Option Vec3 :=
  sparse m
    (fun v => -(foreheadZone m * 0.5) < getHeight m v - foreheadHeight m &&
      getHeight m v - foreheadHeight m < foreheadZone m &&
      getWidth v < foreheadWidth m)
    (fun v =>
      makeOffset m 0 0
        (baseOffset m * 1.3 *
          max 0 (1 - |getHeight m v - foreheadHeight m| / foreheadZone m)))

/-- "CheekboneHeight" offsets. -/
def cheekOffsets (m : Mesh) : ℕ → Option Vec3 :=
  sparse m
    (fun v => |getHeight m v - cheekHeight m| < cheekZone m &&
      cheekInner m < getWidth v && getWidth v < cheekOuter m)
    (fun v =>
      makeOffset m
        (lateralDir m v * baseOffset m * 0.3 *
          (1 - |getHeight m v - cheekHeight m| / cheekZone m)) 0
        (baseOffset m * 0.7 *
          (1 - |getHeight m v - cheekHeight m| / cheekZone m)))

/-! ### `create_body_morphs` — always measured along the z axis -/

/-- Body-morph `mesh_height = max_co.z - min_co.z` (z unconditionally). -/
def bodyMeshHeight (m : Mesh) : ℚ := dimZ m

/-- Body-morph `mesh_width = max_co.x - min_co.x`. -/
def bodyMeshWidth (m : Mesh) : ℚ := dimX m

/-- `body_top = max_co.z - mesh_height * 0.125`. -/
def bodyTop (m : Mesh) : ℚ := maxCoord (·.z) m - bodyMeshHeight m * 0.125

/-- `body_bottom = min_co.z`. -/
def bodyBottom (m : Mesh) : ℚ := minCoord (·.z) m

/-- `body_offset = mesh_width * 0.015`. -/
def bodyOffset (m : Mesh) : ℚ := bodyMeshWidth m * 0.015

/-- `min_dx = mesh_width * 0.12`. -/
def minDx (m : Mesh) : ℚ := bodyMeshWidth m * 0.12

/-- `torso_bottom = body_bottom + mesh_height * 0.25` (Build_Athletic). -/
def torsoBottom (m : Mesh) : ℚ := bodyBottom m + bodyMeshHeight m * 0.25

/-- `shoulder_region = mesh_height * 0.20` (Build_Athletic). -/
def shoulderRegion (m : Mesh) : ℚ := bodyMeshHeight m * 0.20

/-- `shoulder_zone = max(0, (v.co.z - (body_top - shoulder_region)) /
shoulder_region)`. -/
def shoulderZone (m : Mesh) (v : Vec3) : ℚ :=
  max 0 ((v.z - (bodyTop m - shoulderRegion m)) / shoulderRegion m)

/-- `torso_mid = body_bottom + mesh_height * 0.20` (Build_Heavy). -/
def torsoMid (m : Mesh) : ℚ := bodyBottom m + bodyMeshHeight m * 0.20

/-- The Build_Heavy region test: `v.co.z < body_top` and
`abs(v.co.x - center_x) > min_dx` (shared with Build_Slim). -/
def heavyCond (m : Mesh) (v : Vec3) : Bool :=
  v.z < bodyTop m && minDx m < |v.x - centerX m|

/-- The Build_Heavy displacement: `(dx * 0.03, y_offset, 0)` with
`y_offset = -body_offset * 0.3` above `torso_mid`, else 0. -/
def heavyOff (m : Mesh) (v : Vec3) : Vec3 :=
  ⟨(v.x - centerX m) * 0.03,
    if torsoMid m < v.z then -bodyOffset m * 0.3 else 0, 0⟩

/-- "Build_Slim" offsets: `(dx * -0.02, 0, 0)` inside the body region. -/
def slimOffsets (m : Mesh) : ℕ → Option Vec3 :=
  sparse m (fun v => heavyCond m v)
    (fun v => ⟨(v.x - centerX m) * (-0.02), 0, 0⟩)

/-- "Build_Athletic" offsets: `(dx * (0.015 * shoulder_zone), 0, 0)` in the
torso band when `shoulder_zone > 0`. -/
def athleticOffsets (m : Mesh) : ℕ → Option Vec3 :=
  sparse m
    (fun v => v.z < bodyTop m && torsoBottom m < v.z &&
      minDx m < |v.x - centerX m| && 0 < shoulderZone m v)
    (fun v => ⟨(v.x - centerX m) * (0.015 * shoulderZone m v), 0, 0⟩)

/-- "Build_Heavy" offsets. -/
def heavyOffsets (m : Mesh) : ℕ → Option Vec3 :=
  sparse m (fun v => heavyCond m v) (fun v => heavyOff m v)

/-! ### `add_shape_key` and the emitted morph-target set -/

/-- One pass of `add_shape_key`: the shape key's vertex coordinates start at
the basis coordinates (`shape_key_add` copies them); each listed in-range
index is then set to `basis + offset`. `k` is the index of the first vertex
of `verts` within the whole mesh. -/
def addShapeKeyAux (offs : ℕ → Option Vec3) : ℕ → List Vec3 → List Vec3
  | _, [] => []
  | k, v :: vs =>
    (match offs k with
      | some o => v + o
      | none => v) :: addShapeKeyAux offs (k + 1) vs

/-- `add_shape_key(mesh_obj, name, vertex_offsets)`: the coordinates of the
new shape key, relative to the basis vertex list `verts`. The basis list
itself is a read-only input and is returned untouched by the builder. -/
def addShapeKey (verts : List Vec3) (offs : ℕ → Option Vec3) : List Vec3 :=
  addShapeKeyAux offs 0 verts

/-- The names of the 29 shape keys emitted by `create_face_morphs` (26) and
`create_body_morphs` (3), in emission order. -/
def morphNames : List String :=
  ["EyeSize", "EyeSpacing", "EyeTilt", "EyeDepth", "UpperEyelid",
   "LowerEyelid", "EyebrowHeight", "EyebrowArch", "NoseWidth", "NoseLength",
   "NoseBridge", "NoseTip", "NostrilFlare", "NoseProfile", "MouthWidth",
   "UpperLipSize", "LowerLipSize", "LipFullness", "MouthCorners", "JawWidth",
   "ChinLength", "ChinProtrusion", "ChinCleft", "FaceLength",
   "ForeheadHeight", "CheekboneHeight", "Build_Slim", "Build_Athletic",
   "Build_Heavy"]

/-- The full morph-target set produced for a mesh: one named sparse offset
map per catalog entry, emitted unconditionally (also when the map is
empty). -/
def allMorphs (m : Mesh) : List (String × (ℕ → Option Vec3)) :=
  [("EyeSize", eyeOffsets m), ("EyeSpacing", eyeSpacingOffsets m),
   ("EyeTilt", eyeTiltOffsets m), ("EyeDepth", eyeDepthOffsets m),
   ("UpperEyelid", upperEyelidOffsets m), ("LowerEyelid", lowerEyelidOffsets m),
   ("EyebrowHeight", eyebrowHeightOffsets m),
   ("EyebrowArch", eyebrowArchOffsets m), ("NoseWidth", noseOffsets m),
   ("NoseLength", noseLengthOffsets m), ("NoseBridge", noseBridgeOffsets m),
   ("NoseTip", noseTipOffsets m), ("NostrilFlare", nostrilOffsets m),
   ("NoseProfile", noseProfileOffsets m), ("MouthWidth", mouthWidthOffsets m),
   ("UpperLipSize", upperLipOffsets m), ("LowerLipSize", lowerLipOffsets m),
   ("LipFullness", lipOffsets m), ("MouthCorners", mouthCornersOffsets m),
   ("JawWidth", jawOffsets m), ("ChinLength", chinOffsets m),
   ("ChinProtrusion", chinProtrusionOffsets m),
   ("ChinCleft", chinCleftOffsets m), ("FaceLength", faceLengthOffsets m),
   ("ForeheadHeight", foreheadOffsets m),
   ("CheekboneHeight", cheekOffsets m), ("Build_Slim", slimOffsets m),
   ("Build_Athletic", athleticOffsets m), ("Build_Heavy", heavyOffsets m)]

end AME

namespace CSK

/-! ## `create_shape_keys.py` -/

/-- The bounds record returned by `get_mesh_bounds` of
`create_shape_keys.py`; the function returns `None` for a mesh with no
vertices. -/
structure BoundsData where
  bmin : Vec3
  bmax : Vec3
  center : Vec3
  size : Vec3
  deriving DecidableEq, Repr

/-- `get_mesh_bounds(mesh)`: `None` on an empty vertex list, otherwise
min/max/center/size of the coordinates. -/
def getMeshBounds (m : Mesh) : Option BoundsData :=
  match m with
  | [] => none
  | _ :: _ =>
    some
      { bmin := ⟨minCoord (·.x) m, minCoord (·.y) m, minCoord (·.z) m⟩
        bmax := ⟨maxCoord (·.x) m, maxCoord (·.y) m, maxCoord (·.z) m⟩
        center := ⟨(minCoord (·.x) m + maxCoord (·.x) m) / 2,
          (minCoord (·.y) m + maxCoord (·.y) m) / 2,
          (minCoord (·.z) m + maxCoord (·.z) m) / 2⟩
        size := ⟨dimX m, dimY m, dimZ m⟩ }

/-- `smooth_falloff(distance, radius, falloff_type)`: 0 at and beyond the
radius, otherwise the selected falloff of `t = distance / radius` (an
unknown type string falls through to the linear branch). -/
def smoothFalloff (distance radius : ℚ) (ftype : String) : ℚ :=
  if radius ≤ distance then 0
  else
    if ftype = "linear" then 1 - distance / radius
    else if ftype = "smooth" then
      1 - (3 * (distance / radius) * (distance / radius) -
        2 * (distance / radius) * (distance / radius) * (distance / radius))
    else if ftype = "sharp" then (1 - distance / radius) ^ 2
    else 1 - distance / radius

end CSK

namespace AMT

/-! ## `add_morph_targets.py` -/

/-- `eye_height = max_co.z - 0.08` — an absolute offset from the head top,
not proportional to the mesh size. -/
def eyeHeight (m : Mesh) : ℚ := maxCoord (·.z) m - 0.08

/-- `body_top = max_co.z - 0.25`. -/
def bodyTop (m : Mesh) : ℚ := maxCoord (·.z) m - 0.25

/-- "EyeSpacing" offsets of `add_morph_targets.py`: a fixed `±0.01`
lateral displacement, independent of the mesh dimensions. -/
def eyeSpacingOffsets (m : Mesh) : ℕ → Option Vec3 :=
  sparse m
    (fun v => |v.z - eyeHeight m| < 0.04 && |v.y - maxCoord (·.y) m| < 0.1)
    (fun v => ⟨(if centerX m < v.x then 1 else -1) * 0.01, 0, 0⟩)

/-- "Build_Slim" offsets of `add_morph_targets.py`: the x-offset is
`-0.05 * dx` when `abs(dx) > 0.05`, else 0; the entry is stored only when
some component is nonzero. -/
def slimOffsets (m : Mesh) : ℕ → Option Vec3 :=
  sparse m
    (fun v => v.z < bodyTop m &&
      !(decide ((if (0.05 : ℚ) < |v.x - centerX m| then
          -0.05 * (v.x - centerX m) else 0) = 0)))
    (fun v =>
      ⟨if (0.05 : ℚ) < |v.x - centerX m| then -0.05 * (v.x - centerX m)
        else 0, 0, 0⟩)

end AMT

/-! ## Concrete test meshes -/

/-- A Z-up mesh with up-axis extent 180 (centimeter scale). -/
def mesh180 : Mesh := [⟨0, 0, 0⟩, ⟨40, 20, 180⟩]

/-- A Z-up mesh with up-axis extent 1.8 (meter scale). -/
def mesh18 : Mesh := [⟨0, 0, 0⟩, ⟨2/5, 1/5, 9/5⟩]

/-- A Z-up mesh with a vertex inside the Build_Heavy body region. -/
def hmesh : Mesh := [⟨1/2, 0, 1⟩, ⟨-1, 0, 0⟩, ⟨1, 1, 2⟩]

/-- A Z-up mesh whose first vertex sits exactly on the EyeSize region
boundary (height distance exactly `eye_zone_h`). -/
def wmesh : Mesh := [⟨0, 0, 197/100⟩, ⟨0, 0, 0⟩, ⟨1, 1, 2⟩]

/-- A bilaterally symmetric Z-up mesh (closed under `x ↦ -x`): vertex 4 is
exactly on the centerline inside the NoseBridge region, vertices 5 and 6 are
a mirror pair inside the EyeSpacing region. -/
def cmesh : Mesh :=
  [⟨1/2, 0, 0⟩, ⟨-1/2, 0, 0⟩, ⟨0, 0, 2⟩, ⟨0, 1/10, 0⟩, ⟨0, 0, 238/125⟩,
   ⟨1/50, 0, 193/100⟩, ⟨-1/50, 0, 193/100⟩]

/-- A Y-up mesh (y extent 2 strictly dominates) whose first vertex lies in
the z-selected body region. -/
def ymesh : Mesh := [⟨1/2, 1, 1/2⟩, ⟨-4/5, 0, 0⟩, ⟨4/5, 2, 1⟩]

/-- A mesh with a zero-extent y axis (degenerate geometry). -/
def degMesh : Mesh := [⟨0, 0, 0⟩, ⟨1, 0, 2⟩]

/-- A small mesh with a vertex in the `add_morph_targets.py` eye region. -/
def m6a : Mesh := [⟨0, 1, 0⟩, ⟨3/10, 1, 43/25⟩, ⟨-3/10, 0, 9/5⟩]

/-- `m6a` uniformly scaled by 2, with its in-region eye vertex adjusted to
the (absolutely positioned) eye region of the doubled mesh. -/
def m6b : Mesh := [⟨0, 2, 0⟩, ⟨3/5, 2, 88/25⟩, ⟨-3/5, 0, 18/5⟩]

/-! ## Claims -/

/-- **C1**: applying the "Build_Heavy" morph (scale-from-centerline,
magnitude 3%) to a vertex in the body region stores a displacement whose
x component is exactly `0.03 * (v.x - center_x)`, with `center_x` the
midpoint of the mesh's x extent. -/
theorem C1_build_heavy_scale_from_centerline :
    ∀ (m : Mesh) (i : ℕ) (v : Vec3), List.get? m i = some v →
      AME.heavyCond m v = true →
      AME.heavyOffsets m i = some (AME.heavyOff m v) ∧
      (AME.heavyOff m v).x = 0.03 * (v.x - centerX m) ∧
      centerX m = (minCoord (·.x) m + maxCoord (·.x) m) / 2 := by
  intro m i v h hc
  refine ⟨sparse_eq_some _ h hc, ?_, rfl⟩
  show (v.x - centerX m) * 0.03 = 0.03 * (v.x - centerX m)
  ring

/-- Witness for C1 at `hmesh`, vertex 0. -/
theorem C1_build_heavy_scale_from_centerline_witness :
    AME.heavyOffsets hmesh 0 = some (AME.heavyOff hmesh ⟨1/2, 0, 1⟩) ∧
    (AME.heavyOff hmesh ⟨1/2, 0, 1⟩).x = 0.03 * ((1/2 : ℚ) - centerX hmesh) ∧
    centerX hmesh = (minCoord (·.x) hmesh + maxCoord (·.x) hmesh) / 2 :=
  C1_build_heavy_scale_from_centerline hmesh 0 ⟨1/2, 0, 1⟩ rfl
    (by norm_num [AME.heavyCond, hmesh, AME.bodyTop, AME.minDx,
      AME.bodyMeshHeight, AME.bodyMeshWidth, dimX, dimZ, centerX, minCoord,
      maxCoord, min_def, max_def, abs])

/-- **C2**: the detected unit is Centimeter exactly when the extent along
the detected up axis is strictly greater than 50, and Meter otherwise; an
up-axis extent of 180 gives Centimeter, 1.8 gives Meter. -/
theorem C2_unit_detection :
    (∀ m : Mesh,
      AME.detectUnit m = AME.LenUnit.centimeter ↔ 50 < AME.meshHeight m) ∧
    AME.detectUnit mesh180 = AME.LenUnit.centimeter ∧
    AME.detectUnit mesh18 = AME.LenUnit.meter := by
  refine ⟨fun m => ?_,
    by norm_num [AME.detectUnit, AME.meshHeight, AME.upY, dimX, dimY, dimZ,
      mesh180, minCoord, maxCoord, min_def, max_def],
    by norm_num [AME.detectUnit, AME.meshHeight, AME.upY, dimX, dimY, dimZ,
      mesh18, minCoord, maxCoord, min_def, max_def]⟩
  by_cases h : 50 < AME.meshHeight m <;> simp [AME.detectUnit, h]

/-- **C3**: the detected up axis is Y exactly when the Y extent strictly
exceeds both the Z and the X extents, and Z in every other case (ties
included). -/
theorem C3_up_axis_detection :
    ∀ m : Mesh,
      (AME.detectUpAxis m = AME.UpAxis.Y ↔
        dimZ m < dimY m ∧ dimX m < dimY m) ∧
      (AME.detectUpAxis m = AME.UpAxis.Z ↔
        ¬(dimZ m < dimY m ∧ dimX m < dimY m)) := by
  intro m
  by_cases h : dimZ m < dimY m ∧ dimX m < dimY m <;>
    simp [AME.detectUpAxis, AME.upY, h]

/-- A stored sparse entry implies the vertex passed the region test. -/
theorem sparse_cond_of_some {m : Mesh} {i : ℕ} {v d : Vec3}
    {cond : Vec3 → Bool} {off : Vec3 → Vec3} (h : List.get? m i = some v)
    (hs : sparse m cond off i = some d) : cond v = true := by
  rw [sparse_of_get? cond off h] at hs
  cases hcv : cond v with
  | true => rfl
  | false =>
    rw [hcv] at hs
    simp at hs

/-- **C10**: the body morphs measure mesh height and select their region
along the z axis unconditionally: every stored Build_Slim / Build_Athletic /
Build_Heavy vertex satisfies a z-bound test (in both builder scripts), the
body mesh height is the z extent by construction, and this also holds on a
Y-up mesh, where the body height disagrees with the up-axis extent. -/
theorem C10_body_morphs_use_z_unconditionally :
    (∀ m : Mesh, AME.bodyMeshHeight m = dimZ m) ∧
    (∀ (m : Mesh) (i : ℕ) (v d : Vec3), List.get? m i = some v →
      AME.slimOffsets m i = some d → v.z < AME.bodyTop m) ∧
    (∀ (m : Mesh) (i : ℕ) (v d : Vec3), List.get? m i = some v →
      AME.athleticOffsets m i = some d →
      AME.torsoBottom m < v.z ∧ v.z < AME.bodyTop m) ∧
    (∀ (m : Mesh) (i : ℕ) (v d : Vec3), List.get? m i = some v →
      AME.heavyOffsets m i = some d → v.z < AME.bodyTop m) ∧
    (∀ (m : Mesh) (i : ℕ) (v d : Vec3), List.get? m i = some v →
      AMT.slimOffsets m i = some d → v.z < AMT.bodyTop m) ∧
    (AME.detectUpAxis ymesh = AME.UpAxis.Y ∧
      AME.bodyMeshHeight ymesh ≠ dimY ymesh ∧
      (AME.slimOffsets ymesh 0).isSome = true) := by
  refine ⟨fun m => rfl, ?_, ?_, ?_, ?_, ?_, ?_, ?_⟩
  · intro m i v d h hs
    simp only [AME.slimOffsets] at hs
    have hc := sparse_cond_of_some h hs
    simp [AME.heavyCond] at hc
    exact hc.1
  · intro m i v d h hs
    simp only [AME.athleticOffsets] at hs
    have hc := sparse_cond_of_some h hs
    simp only [Bool.and_eq_true, decide_eq_true_eq] at hc
    tauto
  · intro m i v d h hs
    simp only [AME.heavyOffsets] at hs
    have hc := sparse_cond_of_some h hs
    simp [AME.heavyCond] at hc
    exact hc.1
  · intro m i v d h hs
    simp only [AMT.slimOffsets] at hs
    have hc := sparse_cond_of_some h hs
    simp at hc
    exact hc.1
  · norm_num [AME.detectUpAxis, AME.upY, dimX, dimY, dimZ, ymesh, minCoord,
      maxCoord, min_def, max_def]
  · norm_num [AME.bodyMeshHeight, dimY, dimZ, ymesh, minCoord, maxCoord,
      min_def, max_def]
  · norm_num [AME.slimOffsets, sparse, ymesh, AME.heavyCond, AME.bodyTop,
      AME.minDx, AME.bodyMeshHeight, AME.bodyMeshWidth, dimX, dimZ, centerX,
      minCoord, maxCoord, min_def, max_def, abs]

/-- Witness for C10: the Build_Slim entry at vertex 0 of the Y-up mesh was
admitted by the z-axis body test. -/
theorem C10_body_morphs_use_z_unconditionally_witness :
    (1/2 : ℚ) < AME.bodyTop ymesh :=
  C10_body_morphs_use_z_unconditionally.2.1 ymesh 0 ⟨1/2, 1, 1/2⟩
    ⟨(1/2 - centerX ymesh) * (-0.02), 0, 0⟩ rfl
    (by norm_num [AME.slimOffsets, sparse, ymesh, AME.heavyCond, AME.bodyTop,
      AME.minDx, AME.bodyMeshHeight, AME.bodyMeshWidth, dimX, dimZ, centerX,
      minCoord, maxCoord, min_def, max_def, abs])

/-- **C8**: the builder is deterministic — equal meshes give equal
morph-target sets — and emits exactly one named morph target per catalog
entry (the fixed, duplicate-free name list), for every mesh, also when the
offset maps are empty. -/
theorem C8_determinism_one_target_per_entry :
    (∀ m₁ m₂ : Mesh, m₁ = m₂ → AME.allMorphs m₁ = AME.allMorphs m₂) ∧
    (∀ m : Mesh, (AME.allMorphs m).map Prod.fst = AME.morphNames) ∧
    AME.morphNames.Nodup := by
  refine ⟨fun m₁ m₂ h => by rw [h], fun m => rfl, ?_⟩
  decide

/-- Witness for C8 at `mesh180`. -/
theorem C8_determinism_one_target_per_entry_witness :
    AME.allMorphs mesh180 = AME.allMorphs mesh180 :=
  C8_determinism_one_target_per_entry.1 mesh180 mesh180 rfl

/-- Length of one `add_shape_key` pass. -/
theorem addShapeKeyAux_length (offs : ℕ → Option Vec3) :
    ∀ (vs : List Vec3) (k : ℕ),
      (AME.addShapeKeyAux offs k vs).length = vs.length := by
  intro vs
  induction vs with
  | nil => intro k; rfl
  | cons v vs ih =>
    intro k
    simp [AME.addShapeKeyAux, ih]

/-- Pointwise description of one `add_shape_key` pass. -/
theorem addShapeKeyAux_get? (offs : ℕ → Option Vec3) :
    ∀ (vs : List Vec3) (k i : ℕ),
      List.get? (AME.addShapeKeyAux offs k vs) i =
        (List.get? vs i).map
          (fun v => match offs (k + i) with | some o => v + o | none => v) := by
  intro vs
  induction vs with
  | nil =>
    intro k i
    cases i <;> rfl
  | cons v vs ih =>
    intro k i
    cases i with
    | zero => simp [AME.addShapeKeyAux]
    | succ n =>
      simp only [AME.addShapeKeyAux, List.get?_cons_succ, ih (k + 1) n]
      have hkn : k + 1 + n = k + (n + 1) := by omega
      rw [hkn]

/-- **C9**: a shape key is always expressed relative to the basis: each
listed in-range vertex gets the basis coordinate plus its own offset, every
unlisted vertex keeps its basis coordinate, and the vertex count is
preserved (the basis list is a read-only input of `addShapeKey`, which
builds a fresh list). -/
theorem C9_shape_key_relative_to_basis :
    (∀ (verts : List Vec3) (offs : ℕ → Option Vec3),
      (AME.addShapeKey verts offs).length = verts.length) ∧
    (∀ (verts : List Vec3) (offs : ℕ → Option Vec3) (i : ℕ) (v o : Vec3),
      List.get? verts i = some v → offs i = some o →
      List.get? (AME.addShapeKey verts offs) i = some (v + o)) ∧
    (∀ (verts : List Vec3) (offs : ℕ → Option Vec3) (i : ℕ),
      offs i = none →
      List.get? (AME.addShapeKey verts offs) i = List.get? verts i) := by
  refine ⟨fun verts offs => addShapeKeyAux_length offs verts 0,
    fun verts offs i v o hv ho => ?_, fun verts offs i ho => ?_⟩
  · rw [AME.addShapeKey, addShapeKeyAux_get? offs verts 0 i, hv]
    simp [Nat.zero_add, ho]
  · rw [AME.addShapeKey, addShapeKeyAux_get? offs verts 0 i]
    cases hv : List.get? verts i with
    | none => rfl
    | some v => simp [Nat.zero_add, ho]

/-- Witness for C9: a two-vertex basis with one listed offset. -/
theorem C9_shape_key_relative_to_basis_witness :
    List.get?
      (AME.addShapeKey [⟨0, 0, 0⟩, ⟨1, 1, 1⟩]
        (fun j => if j = 0 then some ⟨1, 0, 0⟩ else none)) 0 =
      some ((⟨0, 0, 0⟩ : Vec3) + ⟨1, 0, 0⟩) :=
  C9_shape_key_relative_to_basis.2.1 [⟨0, 0, 0⟩, ⟨1, 1, 1⟩]
    (fun j => if j = 0 then some ⟨1, 0, 0⟩ else none) 0 ⟨0, 0, 0⟩ ⟨1, 0, 0⟩
    rfl rfl

/-- **C4 counterexample**: processing a zero-vertex mesh does not abort —
the builder still emits the full list of morph targets (29 of them), and a
mesh with a zero-extent axis is processed the same way; no error path
exists. -/
theorem C4_geometry_errors_counterexample :
    (AME.allMorphs ([] : Mesh)).map Prod.fst = AME.morphNames ∧
    AME.morphNames ≠ [] ∧
    dimY degMesh = 0 ∧
    (AME.allMorphs degMesh).map Prod.fst = AME.morphNames := by
  refine ⟨rfl, by decide, ?_, rfl⟩
  norm_num [dimY, degMesh, minCoord, maxCoord, min_def, max_def]

/-- **C4 amended**: there is no emptiness or degeneracy validation:
`get_mesh_bounds` of `create_shape_keys.py` returns `None` (not an error)
for an empty vertex list, the main builder emits all 29 morph targets with
empty offset maps on an empty mesh, and a mesh with a zero-extent axis is
processed without any error. -/
theorem C4_no_geometry_validation :
    CSK.getMeshBounds ([] : Mesh) = none ∧
    (∀ i : ℕ, (AME.allMorphs ([] : Mesh)).map (fun p => p.2 i) =
      List.replicate 29 none) ∧
    dimY degMesh = 0 ∧
    (AME.allMorphs degMesh).map Prod.fst = AME.morphNames := by
  refine ⟨rfl, fun i => ?_, ?_, rfl⟩
  · simp only [AME.allMorphs, AME.eyeOffsets, AME.eyeSpacingOffsets,
      AME.eyeTiltOffsets, AME.eyeDepthOffsets, AME.upperEyelidOffsets,
      AME.lowerEyelidOffsets, AME.eyebrowHeightOffsets,
      AME.eyebrowArchOffsets, AME.noseOffsets, AME.noseLengthOffsets,
      AME.noseBridgeOffsets, AME.noseTipOffsets, AME.nostrilOffsets,
      AME.noseProfileOffsets, AME.mouthWidthOffsets, AME.upperLipOffsets,
      AME.lowerLipOffsets, AME.lipOffsets, AME.mouthCornersOffsets,
      AME.jawOffsets, AME.chinOffsets, AME.chinProtrusionOffsets,
      AME.chinCleftOffsets, AME.faceLengthOffsets, AME.foreheadOffsets,
      AME.cheekOffsets, AME.slimOffsets, AME.athleticOffsets,
      AME.heavyOffsets, List.map, sparse_nil]
    rfl
  · norm_num [dimY, degMesh, minCoord, maxCoord, min_def, max_def]

/-- A vertex at height-distance exactly `r` from the region center fails the
strict `<` region test, so no entry is stored for it. -/
theorem boundary_none {m : Mesh} {i : ℕ} {v : Vec3} {c r : ℚ}
    {rest : Vec3 → Bool} (off : Vec3 → Vec3)
    (h : List.get? m i = some v) (hd : |AME.getHeight m v - c| = r) :
    sparse m (fun u => |AME.getHeight m u - c| < r && rest u) off i = none :=
  sparse_eq_none off h (by simp [hd])

/-- As `boundary_none`, for regions with an additional width band (the
three-way conjunction associates to the left). -/
theorem boundary_none3 {m : Mesh} {i : ℕ} {v : Vec3} {c r : ℚ}
    {rest1 rest2 : Vec3 → Bool} (off : Vec3 → Vec3)
    (h : List.get? m i = some v) (hd : |AME.getHeight m v - c| = r) :
    sparse m (fun u => (|AME.getHeight m u - c| < r && rest1 u) && rest2 u)
      off i = none :=
  sparse_eq_none off h (by simp [hd])

/-- **C5**: region boundaries are open — `smooth_falloff` is 0 at (and
beyond) the radius, and in every facial morph a vertex whose height
distance from the region center is exactly the region radius is absent
from the sparse offset map (not stored as a zero entry). -/
theorem C5_open_region_boundary :
    (∀ (d r : ℚ) (ft : String), r ≤ d → CSK.smoothFalloff d r ft = 0) ∧
    ∀ (m : Mesh) (i : ℕ) (v : Vec3), List.get? m i = some v →
      (|AME.getHeight m v - AME.eyeHeight m| = AME.eyeZoneH m →
        AME.eyeOffsets m i = none) ∧
      (|AME.getHeight m v - AME.eyeHeight m| = AME.eyeZoneH m →
        AME.eyeSpacingOffsets m i = none) ∧
      (|AME.getHeight m v - AME.eyeHeight m| = AME.eyeZoneH m * 0.8 →
        AME.eyeTiltOffsets m i = none) ∧
      (|AME.getHeight m v - AME.eyeHeight m| = AME.eyeZoneH m * 0.9 →
        AME.eyeDepthOffsets m i = none) ∧
      (|AME.getHeight m v - AME.upperLidHeight m| = AME.eyelidZone m →
        AME.upperEyelidOffsets m i = none) ∧
      (|AME.getHeight m v - AME.lowerLidHeight m| = AME.eyelidZone m →
        AME.lowerEyelidOffsets m i = none) ∧
      (|AME.getHeight m v - AME.eyebrowHeight m| = AME.browZone m →
        AME.eyebrowHeightOffsets m i = none) ∧
      (|AME.getHeight m v - AME.eyebrowHeight m| = AME.browZone m →
        AME.eyebrowArchOffsets m i = none) ∧
      (|AME.getHeight m v - AME.noseHeight m| = AME.noseZoneH m →
        AME.noseOffsets m i = none) ∧
      (|AME.getHeight m v - AME.noseHeight m| = AME.noseZoneH m * 1.2 →
        AME.noseLengthOffsets m i = none) ∧
      (|AME.getHeight m v - AME.bridgeHeight m| = AME.bridgeZone m →
        AME.noseBridgeOffsets m i = none) ∧
      (|AME.getHeight m v - AME.tipHeight m| = AME.tipZone m →
        AME.noseTipOffsets m i = none) ∧
      (|AME.getHeight m v - AME.nostrilHeight m| = AME.nostrilZone m →
        AME.nostrilOffsets m i = none) ∧
      (|AME.getHeight m v - AME.noseHeight m| = AME.profileZone m →
        AME.noseProfileOffsets m i = none) ∧
      (|AME.getHeight m v - AME.mouthHeight m| = AME.mouthZoneH m →
        AME.mouthWidthOffsets m i = none) ∧
      (|AME.getHeight m v - AME.upperLipHeight m| = AME.lipZone m →
        AME.upperLipOffsets m i = none) ∧
      (|AME.getHeight m v - AME.lowerLipHeight m| = AME.lipZone m →
        AME.lowerLipOffsets m i = none) ∧
      (|AME.getHeight m v - AME.mouthHeight m| = AME.mouthZoneH m * 0.8 →
        AME.lipOffsets m i = none) ∧
      (|AME.getHeight m v - AME.mouthHeight m| = AME.mouthZoneH m * 0.8 →
        AME.mouthCornersOffsets m i = none) ∧
      (|AME.getHeight m v - AME.chinHeight m| = AME.jawZone m →
        AME.jawOffsets m i = none) ∧
      (|AME.getHeight m v - AME.chinCenterH m| = AME.chinZone m →
        AME.chinOffsets m i = none) ∧
      (|AME.getHeight m v - AME.chinHeight m| = AME.chinProtrusionZone m →
        AME.chinProtrusionOffsets m i = none) ∧
      (|AME.getHeight m v - AME.cleftH m| = AME.cleftZone m →
        AME.chinCleftOffsets m i = none) ∧
      (|AME.getHeight m v - AME.faceCenterH m| =
          AME.faceSpan m / 2 + AME.faceHeight m * 0.08 →
        AME.faceLengthOffsets m i = none) ∧
      (|AME.getHeight m v - AME.foreheadHeight m| = AME.foreheadZone m →
        AME.foreheadOffsets m i = none) ∧
      (|AME.getHeight m v - AME.cheekHeight m| = AME.cheekZone m →
        AME.cheekOffsets m i = none) := by
  refine ⟨fun d r ft hr => by simp [CSK.smoothFalloff, hr], fun m i v h => ?_⟩
  refine ⟨?_, ?_, ?_, ?_, ?_, ?_, ?_, ?_, ?_, ?_, ?_, ?_, ?_, ?_, ?_, ?_,
    ?_, ?_, ?_, ?_, ?_, ?_, ?_, ?_, ?_, ?_⟩
  · intro hd
    simp only [AME.eyeOffsets]
    exact boundary_none _ h hd
  · intro hd
    simp only [AME.eyeSpacingOffsets]
    exact boundary_none3 _ h hd
  · intro hd
    simp only [AME.eyeTiltOffsets]
    exact boundary_none3 _ h hd
  · intro hd
    simp only [AME.eyeDepthOffsets]
    exact boundary_none3 _ h hd
  · intro hd
    simp only [AME.upperEyelidOffsets]
    exact boundary_none3 _ h hd
  · intro hd
    simp only [AME.lowerEyelidOffsets]
    exact boundary_none3 _ h hd
  · intro hd
    simp only [AME.eyebrowHeightOffsets]
    exact boundary_none3 _ h hd
  · intro hd
    simp only [AME.eyebrowArchOffsets]
    exact boundary_none3 _ h hd
  · intro hd
    simp only [AME.noseOffsets]
    exact boundary_none _ h hd
  · intro hd
    simp only [AME.noseLengthOffsets]
    exact boundary_none _ h hd
  · intro hd
    simp only [AME.noseBridgeOffsets]
    exact boundary_none _ h hd
  · intro hd
    simp only [AME.noseTipOffsets]
    exact boundary_none _ h hd
  · intro hd
    simp only [AME.nostrilOffsets]
    exact boundary_none3 _ h hd
  · intro hd
    simp only [AME.noseProfileOffsets]
    exact boundary_none _ h hd
  · intro hd
    simp only [AME.mouthWidthOffsets]
    exact boundary_none3 _ h hd
  · intro hd
    simp only [AME.upperLipOffsets]
    exact boundary_none _ h hd
  · intro hd
    simp only [AME.lowerLipOffsets]
    exact boundary_none _ h hd
  · intro hd
    simp only [AME.lipOffsets]
    exact boundary_none _ h hd
  · intro hd
    simp only [AME.mouthCornersOffsets]
    exact boundary_none3 _ h hd
  · intro hd
    simp only [AME.jawOffsets]
    exact boundary_none3 _ h hd
  · intro hd
    simp only [AME.chinOffsets]
    exact boundary_none _ h hd
  · intro hd
    simp only [AME.chinProtrusionOffsets]
    exact boundary_none _ h hd
  · intro hd
    simp only [AME.chinCleftOffsets]
    exact boundary_none _ h hd
  · intro hd
    simp only [AME.faceLengthOffsets]
    apply sparse_eq_none _ h
    have habs : (0 : ℚ) ≤ AME.faceSpan m / 2 + AME.faceHeight m * 0.08 :=
      hd ▸ abs_nonneg _
    rcases (abs_eq habs).mp hd with h1 | h1
    · have hv : ¬(AME.getHeight m v < AME.faceUpperBound m) := by
        simp only [AME.faceCenterH, AME.faceSpan, AME.faceUpperBound,
          AME.foreheadHeight, AME.chinHeight] at h1 ⊢
        intro hcon
        linarith
      simp [hv]
    · have hv : ¬(AME.faceLowerBound m < AME.getHeight m v) := by
        simp only [AME.faceCenterH, AME.faceSpan, AME.faceLowerBound,
          AME.foreheadHeight, AME.chinHeight] at h1 ⊢
        intro hcon
        linarith
      simp [hv]
  · intro hd
    simp only [AME.foreheadOffsets]
    apply sparse_eq_none _ h
    have habs : (0 : ℚ) ≤ AME.foreheadZone m := hd ▸ abs_nonneg _
    rcases (abs_eq habs).mp hd with h1 | h1
    · simp [h1]
    · have hlt : ¬(-(AME.foreheadZone m * 0.5) <
          AME.getHeight m v - AME.foreheadHeight m) := by
        rw [h1]
        intro hcon
        linarith
      simp [hlt]
  · intro hd
    simp only [AME.cheekOffsets]
    exact boundary_none3 _ h hd

/-- Witness for C5: vertex 0 of `wmesh` is exactly `eye_zone_h` away from
the eye line and is absent from the EyeSize map. -/
theorem C5_open_region_boundary_witness :
    AME.eyeOffsets wmesh 0 = none :=
  (C5_open_region_boundary.2 wmesh 0 ⟨0, 0, 197/100⟩ rfl).1
    (by norm_num [AME.getHeight, AME.eyeHeight, AME.eyeZoneH, AME.headTop,
      AME.faceHeight, AME.faceWidth, AME.meshHeight, AME.upY, dimX, dimY,
      dimZ, wmesh, minCoord, maxCoord, min_def, max_def, abs])

/-- Congruence for `makeOffset` in its three scalar arguments. -/
theorem makeOffset_congr {m : Mesh} {a b c d e f : ℚ} (h1 : a = d)
    (h2 : b = e) (h3 : c = f) :
    AME.makeOffset m a b c = AME.makeOffset m d e f := by
  rw [h1, h2, h3]

/-- **C7 counterexample**: on the bilaterally symmetric mesh `cmesh`
(closed under mirroring, centered at `center_x = 0`), vertex 4 lies exactly
on the centerline (it is its own mirror image) inside the NoseBridge
region, yet receives the lateral displacement `-0.0021` — so
`displacement(v).x = -displacement(v').x` fails for it. -/
theorem C7_symmetry_counterexample :
    List.Perm (List.map mirrorV cmesh) cmesh ∧
    centerX cmesh = 0 ∧
    mirrorV ⟨0, 0, 238/125⟩ = ⟨0, 0, 238/125⟩ ∧
    AME.noseBridgeOffsets cmesh 4 = some ⟨-21/10000, 0, 0⟩ ∧
    ¬((-21/10000 : ℚ) = -(-21/10000 : ℚ)) := by
  refine ⟨?_, ?_, by simp [mirrorV], ?_, by norm_num⟩
  · have hmap : List.map mirrorV cmesh =
        [⟨-1/2, 0, 0⟩, ⟨1/2, 0, 0⟩, ⟨0, 0, 2⟩, ⟨0, 1/10, 0⟩,
         ⟨0, 0, 238/125⟩, ⟨-1/50, 0, 193/100⟩, ⟨1/50, 0, 193/100⟩] := by
      norm_num [cmesh, mirrorV]
    rw [hmap]
    exact List.Perm.swap' _ _
      (List.Perm.cons _ (List.Perm.cons _ (List.Perm.cons _
        (List.Perm.swap' _ _ (List.Perm.refl [])))))
  · norm_num [centerX, cmesh, minCoord, maxCoord, min_def, max_def]
  · norm_num [AME.noseBridgeOffsets, sparse, cmesh, AME.bridgeHeight,
      AME.bridgeZone, AME.bridgeWidth, AME.noseHeight, AME.headTop,
      AME.faceHeight, AME.faceWidth, AME.meshHeight, AME.upY, AME.getHeight,
      AME.getWidth, AME.lateralDir, AME.makeOffset, AME.baseOffset, centerX,
      dimX, dimY, dimZ, minCoord, maxCoord, min_def, max_def, abs]

/-- **C7 amended**: for a mesh centered at `center_x = 0`, every morph maps
an off-centerline mirror pair (`v` at `x > 0`, `v'` at `-x`, same y and z)
to mirrored displacements: the x components are negated, the y and z
components equal (exactly, hence within any tolerance). Vertices exactly on
the centerline are excluded: as the counterexample shows, the `else -1`
direction branch can give them a nonzero lateral displacement. -/
theorem C7_symmetric_morph_mirror_pairs :
    ∀ (m : Mesh) (i j : ℕ) (x y z : ℚ), centerX m = 0 →
      List.get? m i = some ⟨x, y, z⟩ → List.get? m j = some ⟨-x, y, z⟩ →
      0 < x →
      AME.eyeOffsets m j = Option.map mirrorV (AME.eyeOffsets m i) ∧
      AME.eyeSpacingOffsets m j =
        Option.map mirrorV (AME.eyeSpacingOffsets m i) ∧
      AME.eyeTiltOffsets m j = Option.map mirrorV (AME.eyeTiltOffsets m i) ∧
      AME.eyeDepthOffsets m j = Option.map mirrorV (AME.eyeDepthOffsets m i) ∧
      AME.upperEyelidOffsets m j =
        Option.map mirrorV (AME.upperEyelidOffsets m i) ∧
      AME.lowerEyelidOffsets m j =
        Option.map mirrorV (AME.lowerEyelidOffsets m i) ∧
      AME.eyebrowHeightOffsets m j =
        Option.map mirrorV (AME.eyebrowHeightOffsets m i) ∧
      AME.eyebrowArchOffsets m j =
        Option.map mirrorV (AME.eyebrowArchOffsets m i) ∧
      AME.noseOffsets m j = Option.map mirrorV (AME.noseOffsets m i) ∧
      AME.noseLengthOffsets m j =
        Option.map mirrorV (AME.noseLengthOffsets m i) ∧
      AME.noseBridgeOffsets m j =
        Option.map mirrorV (AME.noseBridgeOffsets m i) ∧
      AME.noseTipOffsets m j = Option.map mirrorV (AME.noseTipOffsets m i) ∧
      AME.nostrilOffsets m j = Option.map mirrorV (AME.nostrilOffsets m i) ∧
      AME.noseProfileOffsets m j =
        Option.map mirrorV (AME.noseProfileOffsets m i) ∧
      AME.mouthWidthOffsets m j =
        Option.map mirrorV (AME.mouthWidthOffsets m i) ∧
      AME.upperLipOffsets m j = Option.map mirrorV (AME.upperLipOffsets m i) ∧
      AME.lowerLipOffsets m j = Option.map mirrorV (AME.lowerLipOffsets m i) ∧
      AME.lipOffsets m j = Option.map mirrorV (AME.lipOffsets m i) ∧
      AME.mouthCornersOffsets m j =
        Option.map mirrorV (AME.mouthCornersOffsets m i) ∧
      AME.jawOffsets m j = Option.map mirrorV (AME.jawOffsets m i) ∧
      AME.chinOffsets m j = Option.map mirrorV (AME.chinOffsets m i) ∧
      AME.chinProtrusionOffsets m j =
        Option.map mirrorV (AME.chinProtrusionOffsets m i) ∧
      AME.chinCleftOffsets m j =
        Option.map mirrorV (AME.chinCleftOffsets m i) ∧
      AME.faceLengthOffsets m j =
        Option.map mirrorV (AME.faceLengthOffsets m i) ∧
      AME.foreheadOffsets m j = Option.map mirrorV (AME.foreheadOffsets m i) ∧
      AME.cheekOffsets m j = Option.map mirrorV (AME.cheekOffsets m i) ∧
      AME.slimOffsets m j = Option.map mirrorV (AME.slimOffsets m i) ∧
      AME.athleticOffsets m j =
        Option.map mirrorV (AME.athleticOffsets m i) ∧
      AME.heavyOffsets m j = Option.map mirrorV (AME.heavyOffsets m i) := by
  intro m i j x y z hcx hi hj hx
  have hnx : ¬((0 : ℚ) < -x) := by linarith
  simp only [AME.eyeOffsets, AME.eyeSpacingOffsets, AME.eyeTiltOffsets,
    AME.eyeDepthOffsets, AME.upperEyelidOffsets, AME.lowerEyelidOffsets,
    AME.eyebrowHeightOffsets, AME.eyebrowArchOffsets, AME.noseOffsets,
    AME.noseLengthOffsets, AME.noseBridgeOffsets, AME.noseTipOffsets,
    AME.nostrilOffsets, AME.noseProfileOffsets, AME.mouthWidthOffsets,
    AME.upperLipOffsets, AME.lowerLipOffsets, AME.lipOffsets,
    AME.mouthCornersOffsets, AME.jawOffsets, AME.chinOffsets,
    AME.chinProtrusionOffsets, AME.chinCleftOffsets, AME.faceLengthOffsets,
    AME.foreheadOffsets, AME.cheekOffsets, AME.slimOffsets,
    AME.athleticOffsets, AME.heavyOffsets]
  refine ⟨?_, ?_, ?_, ?_, ?_, ?_, ?_, ?_, ?_, ?_, ?_, ?_, ?_, ?_, ?_, ?_,
    ?_, ?_, ?_, ?_, ?_, ?_, ?_, ?_, ?_, ?_, ?_, ?_, ?_⟩
  · exact sparse_mirror hi hj (by simp [AME.getHeight, AME.getWidth])
      (fun _ => by
        rw [AME.mirrorV_makeOffset]
        refine makeOffset_congr ?_ ?_ ?_ <;>
          simp [AME.lateralDir, AME.getHeight, AME.getWidth, hcx, hx, hnx])
  · exact sparse_mirror hi hj (by simp [AME.getHeight, AME.getWidth])
      (fun _ => by
        rw [AME.mirrorV_makeOffset]
        refine makeOffset_congr ?_ ?_ ?_ <;>
          simp [AME.lateralDir, AME.getHeight, AME.getWidth, hcx, hx, hnx])
  · exact sparse_mirror hi hj (by simp [AME.getHeight, AME.getWidth])
      (fun _ => by
        rw [AME.mirrorV_makeOffset]
        refine makeOffset_congr ?_ ?_ ?_ <;>
          simp [AME.lateralDir, AME.getHeight, AME.getWidth, hcx, hx, hnx])
  · exact sparse_mirror hi hj (by simp [AME.getHeight, AME.getWidth])
      (fun _ => by
        rw [AME.mirrorV_makeOffset]
        refine makeOffset_congr ?_ ?_ ?_ <;>
          simp [AME.lateralDir, AME.getHeight, AME.getWidth, hcx, hx, hnx])
  · exact sparse_mirror hi hj (by simp [AME.getHeight, AME.getWidth])
      (fun _ => by
        rw [AME.mirrorV_makeOffset]
        refine makeOffset_congr ?_ ?_ ?_ <;>
          simp [AME.lateralDir, AME.getHeight, AME.getWidth, hcx, hx, hnx])
  · exact sparse_mirror hi hj (by simp [AME.getHeight, AME.getWidth])
      (fun _ => by
        rw [AME.mirrorV_makeOffset]
        refine makeOffset_congr ?_ ?_ ?_ <;>
          simp [AME.lateralDir, AME.getHeight, AME.getWidth, hcx, hx, hnx])
  · exact sparse_mirror hi hj (by simp [AME.getHeight, AME.getWidth])
      (fun _ => by
        rw [AME.mirrorV_makeOffset]
        refine makeOffset_congr ?_ ?_ ?_ <;>
          simp [AME.lateralDir, AME.getHeight, AME.getWidth, hcx, hx, hnx])
  · exact sparse_mirror hi hj (by simp [AME.getHeight, AME.getWidth])
      (fun _ => by
        rw [AME.mirrorV_makeOffset]
        refine makeOffset_congr ?_ ?_ ?_ <;>
          simp [AME.lateralDir, AME.getHeight, AME.getWidth, hcx, hx, hnx])
  · exact sparse_mirror hi hj (by simp [AME.getHeight, AME.getWidth])
      (fun _ => by
        rw [AME.mirrorV_makeOffset]
        refine makeOffset_congr ?_ ?_ ?_ <;>
          simp [AME.lateralDir, AME.getHeight, AME.getWidth, hcx, hx, hnx])
  · exact sparse_mirror hi hj (by simp [AME.getHeight, AME.getWidth])
      (fun _ => by
        rw [AME.mirrorV_makeOffset]
        refine makeOffset_congr ?_ ?_ ?_ <;>
          simp [AME.lateralDir, AME.getHeight, AME.getWidth, hcx, hx, hnx])
  · exact sparse_mirror hi hj (by simp [AME.getHeight, AME.getWidth])
      (fun _ => by
        rw [AME.mirrorV_makeOffset]
        refine makeOffset_congr ?_ ?_ ?_ <;>
          simp [AME.lateralDir, AME.getHeight, AME.getWidth, hcx, hx, hnx])
  · exact sparse_mirror hi hj (by simp [AME.getHeight, AME.getWidth])
      (fun _ => by
        rw [AME.mirrorV_makeOffset]
        refine makeOffset_congr ?_ ?_ ?_ <;>
          simp [AME.lateralDir, AME.getHeight, AME.getWidth, hcx, hx, hnx])
  · exact sparse_mirror hi hj (by simp [AME.getHeight, AME.getWidth])
      (fun _ => by
        rw [AME.mirrorV_makeOffset]
        refine makeOffset_congr ?_ ?_ ?_ <;>
          simp [AME.lateralDir, AME.getHeight, AME.getWidth, hcx, hx, hnx])
  · exact sparse_mirror hi hj (by simp [AME.getHeight, AME.getWidth])
      (fun _ => by
        rw [AME.mirrorV_makeOffset]
        refine makeOffset_congr ?_ ?_ ?_ <;>
          simp [AME.lateralDir, AME.getHeight, AME.getWidth, hcx, hx, hnx])
  · exact sparse_mirror hi hj (by simp [AME.getHeight, AME.getWidth])
      (fun _ => by
        rw [AME.mirrorV_makeOffset]
        refine makeOffset_congr ?_ ?_ ?_ <;>
          simp [AME.lateralDir, AME.getHeight, AME.getWidth, hcx, hx, hnx])
  · exact sparse_mirror hi hj (by simp [AME.getHeight, AME.getWidth])
      (fun _ => by
        rw [AME.mirrorV_makeOffset]
        refine makeOffset_congr ?_ ?_ ?_ <;>
          simp [AME.lateralDir, AME.getHeight, AME.getWidth, hcx, hx, hnx])
  · exact sparse_mirror hi hj (by simp [AME.getHeight, AME.getWidth])
      (fun _ => by
        rw [AME.mirrorV_makeOffset]
        refine makeOffset_congr ?_ ?_ ?_ <;>
          simp [AME.lateralDir, AME.getHeight, AME.getWidth, hcx, hx, hnx])
  · exact sparse_mirror hi hj (by simp [AME.getHeight, AME.getWidth])
      (fun _ => by
        rw [AME.mirrorV_makeOffset]
        refine makeOffset_congr ?_ ?_ ?_ <;>
          simp [AME.lateralDir, AME.getHeight, AME.getWidth, hcx, hx, hnx])
  · exact sparse_mirror hi hj (by simp [AME.getHeight, AME.getWidth])
      (fun _ => by
        rw [AME.mirrorV_makeOffset]
        refine makeOffset_congr ?_ ?_ ?_ <;>
          simp [AME.lateralDir, AME.getHeight, AME.getWidth, hcx, hx, hnx])
  · exact sparse_mirror hi hj (by simp [AME.getHeight, AME.getWidth])
      (fun _ => by
        rw [AME.mirrorV_makeOffset]
        refine makeOffset_congr ?_ ?_ ?_ <;>
          simp [AME.lateralDir, AME.getHeight, AME.getWidth, hcx, hx, hnx])
  · exact sparse_mirror hi hj (by simp [AME.getHeight, AME.getWidth])
      (fun _ => by
        rw [AME.mirrorV_makeOffset]
        refine makeOffset_congr ?_ ?_ ?_ <;>
          simp [AME.lateralDir, AME.getHeight, AME.getWidth, hcx, hx, hnx])
  · exact sparse_mirror hi hj (by simp [AME.getHeight, AME.getWidth])
      (fun _ => by
        rw [AME.mirrorV_makeOffset]
        refine makeOffset_congr ?_ ?_ ?_ <;>
          simp [AME.lateralDir, AME.getHeight, AME.getWidth, hcx, hx, hnx])
  · exact sparse_mirror hi hj (by simp [AME.getHeight, AME.getWidth])
      (fun _ => by
        rw [AME.mirrorV_makeOffset]
        refine makeOffset_congr ?_ ?_ ?_ <;>
          simp [AME.lateralDir, AME.getHeight, AME.getWidth, hcx, hx, hnx])
  · exact sparse_mirror hi hj (by simp [AME.getHeight, AME.getWidth])
      (fun _ => by
        rw [AME.mirrorV_makeOffset]
        refine makeOffset_congr ?_ ?_ ?_ <;>
          simp [AME.lateralDir, AME.getHeight, AME.getWidth, hcx, hx, hnx])
  · exact sparse_mirror hi hj (by simp [AME.getHeight, AME.getWidth])
      (fun _ => by
        rw [AME.mirrorV_makeOffset]
        refine makeOffset_congr ?_ ?_ ?_ <;>
          simp [AME.lateralDir, AME.getHeight, AME.getWidth, hcx, hx, hnx])
  · exact sparse_mirror hi hj (by simp [AME.getHeight, AME.getWidth])
      (fun _ => by
        rw [AME.mirrorV_makeOffset]
        refine makeOffset_congr ?_ ?_ ?_ <;>
          simp [AME.lateralDir, AME.getHeight, AME.getWidth, hcx, hx, hnx])
  · exact sparse_mirror hi hj
      (by simp [AME.heavyCond, AME.getWidth, hcx])
      (fun _ => by
        simp only [mirrorV, Vec3.mk.injEq, hcx]
        refine ⟨by ring, trivial, trivial⟩)
  · exact sparse_mirror hi hj
      (by simp [AME.getWidth, AME.shoulderZone, hcx])
      (fun _ => by
        simp only [mirrorV, Vec3.mk.injEq, hcx, AME.shoulderZone]
        refine ⟨by ring, trivial, trivial⟩)
  · exact sparse_mirror hi hj
      (by simp [AME.heavyCond, AME.getWidth, hcx])
      (fun _ => by
        simp only [mirrorV, Vec3.mk.injEq, hcx, AME.heavyOff]
        refine ⟨by ring, trivial, trivial⟩)

/-- Witness for C7 (amended) at the mirror pair 5/6 of `cmesh`. -/
theorem C7_symmetric_morph_mirror_pairs_witness :
    AME.eyeSpacingOffsets cmesh 6 =
      Option.map mirrorV (AME.eyeSpacingOffsets cmesh 5) :=
  (C7_symmetric_morph_mirror_pairs cmesh 5 6 (1/50) 0 (193/100)
    (by norm_num [centerX, cmesh, minCoord, maxCoord, min_def, max_def])
    rfl (by norm_num [cmesh, List.get?]) (by norm_num)).2.1

/-- Uniform scaling of a vertex. -/
def scaleV (s : ℚ) (v : Vec3) : Vec3 := ⟨s * v.x, s * v.y, s * v.z⟩

/-- Uniform scaling of a mesh. -/
def scaleMesh (s : ℚ) (m : Mesh) : Mesh := m.map (scaleV s)

theorem foldl_min_scale (s : ℚ) (hs : 0 ≤ s) (f : Vec3 → ℚ) :
    ∀ (l : List Vec3) (a : ℚ),
      List.foldl (fun b u => min b (s * f u)) (s * a) l =
        s * List.foldl (fun b u => min b (f u)) a l := by
  intro l
  induction l with
  | nil => intro a; rfl
  | cons u l ih =>
    intro a
    simp only [List.foldl]
    rw [← mul_min_of_nonneg _ _ hs]
    exact ih (min a (f u))

theorem foldl_max_scale (s : ℚ) (hs : 0 ≤ s) (f : Vec3 → ℚ) :
    ∀ (l : List Vec3) (a : ℚ),
      List.foldl (fun b u => max b (s * f u)) (s * a) l =
        s * List.foldl (fun b u => max b (f u)) a l := by
  intro l
  induction l with
  | nil => intro a; rfl
  | cons u l ih =>
    intro a
    simp only [List.foldl]
    rw [← mul_max_of_nonneg _ _ hs]
    exact ih (max a (f u))

theorem minCoord_scale (s : ℚ) (hs : 0 ≤ s) (f : Vec3 → ℚ)
    (hf : ∀ v : Vec3, f (scaleV s v) = s * f v) (m : Mesh) :
    minCoord f (scaleMesh s m) = s * minCoord f m := by
  cases m with
  | nil => simp [minCoord, scaleMesh]
  | cons v vs =>
    simp only [scaleMesh, List.map_cons, minCoord, List.foldl_map, hf]
    exact foldl_min_scale s hs f vs (f v)

theorem maxCoord_scale (s : ℚ) (hs : 0 ≤ s) (f : Vec3 → ℚ)
    (hf : ∀ v : Vec3, f (scaleV s v) = s * f v) (m : Mesh) :
    maxCoord f (scaleMesh s m) = s * maxCoord f m := by
  cases m with
  | nil => simp [maxCoord, scaleMesh]
  | cons v vs =>
    simp only [scaleMesh, List.map_cons, maxCoord, List.foldl_map, hf]
    exact foldl_max_scale s hs f vs (f v)

theorem dimX_scale (s : ℚ) (hs : 0 ≤ s) (m : Mesh) :
    dimX (scaleMesh s m) = s * dimX m := by
  rw [dimX, dimX, minCoord_scale s hs _ (fun v => rfl),
    maxCoord_scale s hs _ (fun v => rfl)]
  ring

theorem dimY_scale (s : ℚ) (hs : 0 ≤ s) (m : Mesh) :
    dimY (scaleMesh s m) = s * dimY m := by
  rw [dimY, dimY, minCoord_scale s hs _ (fun v => rfl),
    maxCoord_scale s hs _ (fun v => rfl)]
  ring

theorem dimZ_scale (s : ℚ) (hs : 0 ≤ s) (m : Mesh) :
    dimZ (scaleMesh s m) = s * dimZ m := by
  rw [dimZ, dimZ, minCoord_scale s hs _ (fun v => rfl),
    maxCoord_scale s hs _ (fun v => rfl)]
  ring

theorem upY_scale (s : ℚ) (hs : 0 < s) (m : Mesh) :
    AME.upY (scaleMesh s m) = AME.upY m := by
  rw [AME.upY, AME.upY, dimX_scale s hs.le, dimY_scale s hs.le,
    dimZ_scale s hs.le]
  simp [mul_lt_mul_left hs]

theorem meshHeight_scale (s : ℚ) (hs : 0 < s) (m : Mesh) :
    AME.meshHeight (scaleMesh s m) = s * AME.meshHeight m := by
  rw [AME.meshHeight, AME.meshHeight, upY_scale s hs, dimY_scale s hs.le,
    dimZ_scale s hs.le]
  split <;> rfl

/-- **C6 counterexample**: the EyeSpacing morph of `add_morph_targets.py`
stores the same absolute displacement `(0.01, 0, 0)` on two meshes one of
which is twice the size of the other, so its magnitude is not
`fraction × basis` for any mesh-derived basis (face height, mesh width or
mesh height all double). -/
theorem C6_absolute_offset_counterexample :
    AMT.eyeSpacingOffsets m6a 1 = some ⟨1/100, 0, 0⟩ ∧
    AMT.eyeSpacingOffsets m6b 1 = some ⟨1/100, 0, 0⟩ ∧
    dimX m6b = 2 * dimX m6a ∧ dimY m6b = 2 * dimY m6a ∧
    dimZ m6b = 2 * dimZ m6a ∧ dimZ m6a ≠ 0 ∧
    ¬(∃ c : ℚ, (1/100 : ℚ) = c * dimZ m6a ∧ (1/100 : ℚ) = c * dimZ m6b) ∧
    ¬(∃ c : ℚ, (1/100 : ℚ) = c * dimX m6a ∧ (1/100 : ℚ) = c * dimX m6b) := by
  have eza : dimZ m6a = 9/5 := by
    norm_num [dimZ, m6a, minCoord, maxCoord, min_def, max_def]
  have ezb : dimZ m6b = 18/5 := by
    norm_num [dimZ, m6b, minCoord, maxCoord, min_def, max_def]
  have exa : dimX m6a = 3/5 := by
    norm_num [dimX, m6a, minCoord, maxCoord, min_def, max_def]
  have exb : dimX m6b = 6/5 := by
    norm_num [dimX, m6b, minCoord, maxCoord, min_def, max_def]
  refine ⟨?_, ?_, ?_, ?_, ?_, ?_, ?_, ?_⟩
  · norm_num [AMT.eyeSpacingOffsets, sparse, m6a, AMT.eyeHeight, centerX,
      minCoord, maxCoord, min_def, max_def, abs]
  · norm_num [AMT.eyeSpacingOffsets, sparse, m6b, AMT.eyeHeight, centerX,
      minCoord, maxCoord, min_def, max_def, abs]
  · rw [exa, exb]; norm_num
  · norm_num [dimY, m6a, m6b, minCoord, maxCoord, min_def, max_def]
  · rw [eza, ezb]; norm_num
  · rw [eza]; norm_num
  · rw [eza, ezb]
    rintro ⟨c, h1, h2⟩
    rw [h1] at h2
    linarith
  · rw [exa, exb]
    rintro ⟨c, h1, h2⟩
    rw [h1] at h2
    linarith

/-- **C6 amended**: in `add_morphs_to_existing.py` every displacement
magnitude is a fraction of a mesh-derived basis (`base_offset` is 1.5% of
`face_height`, itself 10% of the mesh height; `body_offset` is 1.5% of the
mesh width), and these bases scale linearly with the mesh; but the older
scripts (`add_morph_targets.py`, `create_shape_keys.py`) use absolute
constant offsets — e.g. their EyeSpacing displacement is always `±0.01`,
independent of mesh size. -/
theorem C6_magnitude_proportionality :
    (∀ m : Mesh, AME.baseOffset m = AME.faceHeight m * 0.015 ∧
      AME.faceHeight m = AME.meshHeight m * 0.10 ∧
      AME.bodyOffset m = dimX m * 0.015) ∧
    (∀ (m : Mesh) (s : ℚ), 0 < s →
      AME.baseOffset (scaleMesh s m) = s * AME.baseOffset m ∧
      AME.bodyOffset (scaleMesh s m) = s * AME.bodyOffset m) ∧
    (∀ (m : Mesh) (i : ℕ) (v d : Vec3), List.get? m i = some v →
      AMT.eyeSpacingOffsets m i = some d →
      d = ⟨0.01, 0, 0⟩ ∨ d = ⟨-0.01, 0, 0⟩) := by
  refine ⟨fun m => ⟨rfl, rfl, rfl⟩, fun m s hs => ⟨?_, ?_⟩, ?_⟩
  · rw [AME.baseOffset, AME.baseOffset, AME.faceHeight, AME.faceHeight,
      meshHeight_scale s hs]
    ring
  · rw [AME.bodyOffset, AME.bodyOffset, AME.bodyMeshWidth, AME.bodyMeshWidth,
      dimX_scale s hs.le]
    ring
  · intro m i v d h hs
    simp only [AMT.eyeSpacingOffsets] at hs
    rw [sparse_of_get? _ _ h] at hs
    split_ifs at hs with hc hx
    · left
      cases hs
      norm_num [Vec3.mk.injEq]
    · right
      cases hs
      norm_num [Vec3.mk.injEq]

/-- Witness for C6 (amended): scaling `mesh18` by 2 doubles `base_offset`. -/
theorem C6_magnitude_proportionality_witness :
    AME.baseOffset (scaleMesh 2 mesh18) = 2 * AME.baseOffset mesh18 :=
  (C6_magnitude_proportionality.2.1 mesh18 2 (by norm_num)).1
